import Mathlib

/-!
Shallow embedding of the OAuth token lifecycle and authenticated-request layer of
the tgm-jira-bot repository (`src/integrations/jira_client.py` and
`src/utils/token_storage.py`), together with theorems settling the claims about it.

HTTP calls and file writes are modelled by explicit outcome oracles passed in as
environments; the Python object state (`JiraClient` instance fields) is an explicit
`ClientState` value threaded through each operation, and the persisted token file is
a `FileState` map threaded alongside.  Python exceptions are modelled by `Except`
results; an operation that mutates fields before raising returns both the error and
the mutated state.
-/

set_option linter.unusedVariables false

namespace TgmJira

/-- Python `str(x)` applied to an optional string: `None` renders as `"None"`
(as in an f-string interpolation). -/
def pyStr : Option String → String
  | some s => s
  | none => "None"

/-- Python `s.rstrip('/')`: removes every trailing `'/'` character. -/
def rstripSlash (s : String) : String :=
  String.mk ((s.toList.reverse.dropWhile (· == '/')).reverse)

/-- Python `s.lstrip('/')`: removes every leading `'/'` character. -/
def lstripSlash (s : String) : String :=
  String.mk (s.toList.dropWhile (· == '/'))

/-- Python `s.endswith(suf)`. -/
def pyEndsWith (s suf : String) : Bool :=
  suf.toList.isSuffixOf s.toList

/-- A persisted credential record: the JSON object written by
`JiraClient._save_tokens` (each value a string or `null`). -/
structure CredRecord where
  access_token : Option String
  refresh_token : Option String
  site_id : Option String
  cloud_url : String
  api_base : String
deriving DecidableEq, Repr

/-- The token storage file contents (`TokenStorage._load_all_tokens` view): a JSON
object mapping each service name to its record. -/
def FileState := String → Option CredRecord

/-- The empty token file (no services stored). -/
def emptyFile : FileState := fun _ => none

/-- Python truthiness of a stored record: the record is a JSON object carrying its
five keys, hence a non-empty dict, hence always truthy. -/
def CredRecord.truthy (_ : CredRecord) : Bool := true

/-- `TokenStorage.save_tokens`: load all tokens, set the entry for `service`, write
the whole mapping back.  `writeOk` models whether the file write succeeds; on
failure the exception is caught inside `save_tokens`, the file is unchanged and
`false` is returned. -/
def save_tokens (writeOk : Bool) (file : FileState) (service : String)
    (tokens : CredRecord) : FileState × Bool :=
  if writeOk then
    (fun k => if k = service then some tokens else file k, true)
  else
    (file, false)

/-- `TokenStorage.load_tokens`: look up the entry for `service`; a missing or falsy
entry yields `None`, never an exception. -/
def load_tokens (file : FileState) (service : String) : Option CredRecord :=
  match file service with
  | some t => if t.truthy then some t else none
  | none => none

/-- The in-memory `JiraClient` instance fields relevant to the token lifecycle. -/
structure ClientState where
  cloud_url : String
  client_id : String
  client_secret : String
  redirect_uri : String
  project_key : String
  access_token : Option String
  refresh_token : Option String
  is_cloud : Bool
  auth_url : String
  token_url : String
  api_base : String
  site_id : Option String
deriving DecidableEq, Repr

/-- `JiraClient.__init__`: strips trailing slashes from the base URL, classifies
cloud vs Data Center by the `.atlassian.net` suffix, hydrates tokens from storage
when no access token was supplied (`_load_saved_tokens`), then computes the OAuth
endpoints and default `api_base`.  Note the source sets `self.site_id = None` and
the default `api_base` after `_load_saved_tokens` ran, so any site id or per-site
`api_base` loaded from storage is overwritten. -/
def initClient (cloud_url client_id client_secret redirect_uri project_key : String)
    (access_token refresh_token : Option String) (file : FileState) : ClientState :=
  let u := rstripSlash cloud_url
  let cloud := pyEndsWith u ".atlassian.net"
  let loaded :=
    if access_token = none then
      match load_tokens file "jira" with
      | some t => (t.access_token, t.refresh_token)
      | none => (access_token, refresh_token)
    else
      (access_token, refresh_token)
  { cloud_url := u
    client_id := client_id
    client_secret := client_secret
    redirect_uri := redirect_uri
    project_key := project_key
    access_token := loaded.1
    refresh_token := loaded.2
    is_cloud := cloud
    auth_url :=
      if cloud then "https://auth.atlassian.com/authorize"
      else u ++ "/plugins/servlet/oauth/authorize"
    token_url :=
      if cloud then "https://auth.atlassian.com/oauth/token"
      else u ++ "/plugins/servlet/oauth/access-token"
    api_base := u ++ "/rest/api/" ++ (if cloud then "3" else "2")
    site_id := none }

/-- The OAuth scope list requested by `JiraClient.get_authorization_url`, selected
by the deployment variant. -/
def oauthScopes (is_cloud : Bool) : List String :=
  if is_cloud then
    ["read:jira-user", "read:jira-work", "write:jira-work", "offline_access"]
  else
    ["read:jira-user", "read:jira-work", "write:jira-work",
     "manage:jira-project", "manage:jira-configuration"]

/-- The parsed JSON body returned by a token endpoint: `access_token` mandatory,
`refresh_token` present or absent. -/
structure TokenJson where
  access_token : String
  refresh_token : Option String
deriving DecidableEq, Repr

/-- One entry of the accessible-resources response: `id` may be absent
(`resource.get('id')`). -/
structure Resource where
  id : Option String
  url : String
deriving DecidableEq, Repr

/-- A Python exception as observed by callers: `ValueError`, a generic
`Exception(msg)`, or a transport-level error raised by the HTTP client. -/
inductive PyErr where
  | valueError (msg : String)
  | exn (msg : String)
  | transport (msg : String)
deriving DecidableEq, Repr

/-- The message an f-string interpolation of the exception produces. -/
def PyErr.msg : PyErr → String
  | .valueError m => m
  | .exn m => m
  | .transport m => m

/-- Outcome of one HTTP POST to a token endpoint: the transport throws, or a
response arrives with a status, body text, and (for `response.json()`) an optional
parsed token body (`none` models an unparseable body, whose parse raises). -/
inductive TokenResp where
  | netErr (msg : String)
  | resp (status : Nat) (text : String) (body : Option TokenJson)
deriving DecidableEq, Repr

/-- Outcome of the accessible-resources GET. -/
inductive ResResp where
  | netErr (msg : String)
  | resp (status : Nat) (body : Option (List Resource))
deriving DecidableEq, Repr

/-- Environment for one token acquisition operation: the cloud token-endpoint HTTP
outcome, the Data-Center `OAuth2Session` library outcome, the accessible-resources
outcome for the nested site resolution, and whether the token-file write succeeds. -/
structure TokenEnv where
  http : TokenResp
  dc : Except String TokenJson
  res : ResResp
  saveOk : Bool

/-- The per-site API base URL written by `_get_accessible_resources`
(an f-string interpolation of `self.site_id`). -/
def siteApiBase (site_id : Option String) : String :=
  "https://api.atlassian.com/ex/jira/" ++ pyStr site_id ++ "/rest/api/3"

/-- `JiraClient._get_accessible_resources`: with no access token, or on transport
error, non-200 status, or unparseable body, the state is left unchanged (all
exceptions are caught inside); on a 200 list, the first resource whose `url`
equals `cloud_url` wins, else the first resource of a non-empty list, and
`site_id` / `api_base` are rewritten accordingly. -/
def get_accessible_resources (out : ResResp) (s : ClientState) : ClientState :=
  match s.access_token with
  | none => s
  | some _ =>
    match out with
    | .netErr _ => s
    | .resp status body =>
      if status = 200 then
        match body with
        | none => s
        | some resources =>
          match resources.find? (fun r => r.url == s.cloud_url) with
          | some r => { s with site_id := r.id, api_base := siteApiBase r.id }
          | none =>
            match resources with
            | [] => s
            | r0 :: _ => { s with site_id := r0.id, api_base := siteApiBase r0.id }
      else s

/-- The record `JiraClient._save_tokens` assembles from the current session
fields. -/
def saveTokensRecord (s : ClientState) : CredRecord :=
  { access_token := s.access_token
    refresh_token := s.refresh_token
    site_id := s.site_id
    cloud_url := s.cloud_url
    api_base := s.api_base }

/-- `JiraClient._save_tokens`: writes the current session record under service
name `"jira"`; any storage failure is caught and logged, leaving the file
unchanged. -/
def saveTokensStep (saveOk : Bool) (s : ClientState) (file : FileState) : FileState :=
  (save_tokens saveOk file "jira" (saveTokensRecord s)).1

/-- Result of `refresh_access_token`: the returned token or the raised exception,
together with the (possibly mutated) session state and token file. -/
structure RefreshOut where
  result : Except PyErr String
  state : ClientState
  file : FileState

/-- The token obtained by `refresh_access_token` before any field assignment: for
cloud, the direct HTTP POST (`Exception` on a non-200 status carrying status and
body text, a raised decode error on an unparseable body); for Data Center, the
`OAuth2Session.refresh_token` library call. -/
def refreshFetch (cloud : Bool) (env : TokenEnv) : Except PyErr TokenJson :=
  if cloud then
    match env.http with
    | .netErr m => .error (.transport m)
    | .resp status text body =>
      if status ≠ 200 then
        .error (.exn ("Token refresh failed: " ++ toString status ++ " - " ++ text))
      else
        match body with
        | none => .error (.exn "JSONDecodeError")
        | some tok => .ok tok
  else
    match env.dc with
    | .error m => .error (.exn m)
    | .ok tok => .ok tok

/-- `JiraClient.refresh_access_token`: requires a refresh token; on a fetch
failure the exception is re-raised with no field assignment; on success the
access token is replaced, the refresh token is replaced only when the response
carries one, site resolution runs for cloud, and the record is persisted
(persistence failure swallowed). -/
def refresh_access_token (env : TokenEnv) (s : ClientState) (file : FileState) :
    RefreshOut :=
  if s.refresh_token = none then
    ⟨.error (.valueError "No refresh token available"), s, file⟩
  else
    match refreshFetch s.is_cloud env with
    | .error e => ⟨.error e, s, file⟩
    | .ok tok =>
      let s1 : ClientState :=
        { s with
          access_token := some tok.access_token
          refresh_token :=
            match tok.refresh_token with
            | some r => some r
            | none => s.refresh_token }
      let s2 := if s1.is_cloud then get_accessible_resources env.res s1 else s1
      ⟨.ok tok.access_token, s2, saveTokensStep env.saveOk s2 file⟩

/-- Result of `exchange_code_for_tokens`: the returned `(access, refresh)` pair or
the raised exception, with the session state and token file. -/
structure ExchangeOut where
  result : Except PyErr (String × Option String)
  state : ClientState
  file : FileState

/-- The token obtained by `exchange_code_for_tokens` before any field assignment:
for cloud, the direct HTTP POST of the authorization code (an `Exception` carrying
status and body text on a non-200 status); for Data Center, the
`OAuth2Session.fetch_token` library call. -/
def exchangeFetch (cloud : Bool) (env : TokenEnv) : Except PyErr TokenJson :=
  if cloud then
    match env.http with
    | .netErr m => .error (.transport m)
    | .resp status text body =>
      if status ≠ 200 then
        .error (.exn ("Token exchange failed: " ++ toString status ++ " - " ++ text))
      else
        match body with
        | none => .error (.exn "JSONDecodeError")
        | some tok => .ok tok
  else
    match env.dc with
    | .error m => .error (.exn m)
    | .ok tok => .ok tok

/-- `JiraClient.exchange_code_for_tokens`: on a fetch failure the exception is
re-raised with no field assignment; on success the access token is set, the
refresh token is set to `token.get('refresh_token')` (absent clears it), site
resolution runs for cloud, the record is persisted (persistence failure
swallowed), and the `(access, refresh)` pair is returned. -/
def exchange_code_for_tokens (env : TokenEnv) (s : ClientState) (file : FileState) :
    ExchangeOut :=
  match exchangeFetch s.is_cloud env with
  | .error e => ⟨.error e, s, file⟩
  | .ok tok =>
    let s1 : ClientState :=
      { s with
        access_token := some tok.access_token
        refresh_token := tok.refresh_token }
    let s2 := if s1.is_cloud then get_accessible_resources env.res s1 else s1
    ⟨.ok (tok.access_token, s2.refresh_token), s2, saveTokensStep env.saveOk s2 file⟩

/-- One Jira API HTTP response as read by the client: status, body text, and the
optional `"key"` entry of the parsed JSON body. -/
structure ApiResp where
  status : Nat
  text : String
  key : Option String
deriving DecidableEq, Repr

/-- Outcome of one `client.request` call: transport error or a response. -/
inductive ApiOutcome where
  | netErr (msg : String)
  | resp (r : ApiResp)
deriving DecidableEq, Repr

/-- One issued API request as the wire would see it: method, full URL, body,
query parameters, and the `Authorization` header value. -/
structure ReqCall where
  method : String
  url : String
  data : Option String
  params : Option String
  auth : String
deriving DecidableEq, Repr

/-- Environment for one `_make_authenticated_request` run: the outcome of the
first request, the environment of the (at most one) nested token refresh, and the
outcome of the retried request. -/
structure ReqEnv where
  first : ApiOutcome
  refreshEnv : TokenEnv
  second : ApiOutcome

/-- Result of `_make_authenticated_request`: the response or raised exception,
the session state and token file, the number of `refresh_access_token`
invocations, and the list of API requests actually issued, in order. -/
structure ReqOut where
  result : Except PyErr ApiResp
  state : ClientState
  file : FileState
  refreshCalls : Nat
  calls : List ReqCall

/-- `JiraClient._make_authenticated_request`: raises `ValueError` before any
network traffic when no access token is present; otherwise issues the request
with bearer auth, and on a 401 with `retry_on_auth_error` and a refresh token
present, refreshes once (a refresh failure propagates), rebuilds the
`Authorization` header from the new access token, and retries the identical
request once, returning whatever the retry produced. -/
def make_authenticated_request (method endpoint : String) (data params : Option String)
    (retry_on_auth_error : Bool) (env : ReqEnv) (s : ClientState) (file : FileState) :
    ReqOut :=
  match s.access_token with
  | none =>
    ⟨.error (.valueError "No access token available. Please authenticate first."),
     s, file, 0, []⟩
  | some tk =>
    let url := s.api_base ++ "/" ++ lstripSlash endpoint
    let c1 : ReqCall := ⟨method, url, data, params, "Bearer " ++ tk⟩
    match env.first with
    | .netErr m => ⟨.error (.transport m), s, file, 0, [c1]⟩
    | .resp r =>
      if r.status == 401 && retry_on_auth_error && s.refresh_token.isSome then
        let ro := refresh_access_token env.refreshEnv s file
        match ro.result with
        | .error e => ⟨.error e, ro.state, ro.file, 1, [c1]⟩
        | .ok newTk =>
          let c2 : ReqCall := ⟨method, url, data, params, "Bearer " ++ newTk⟩
          match env.second with
          | .netErr m => ⟨.error (.transport m), ro.state, ro.file, 1, [c1, c2]⟩
          | .resp r2 => ⟨.ok r2, ro.state, ro.file, 1, [c1, c2]⟩
      else
        ⟨.ok r, s, file, 0, [c1]⟩

/-- The `TicketResponse` model (`src/models/ticket.py`). -/
structure TicketResponse where
  success : Bool
  ticket_key : Option String
  ticket_url : Option String
  error_message : Option String
deriving DecidableEq, Repr

/-- `JiraClient.create_ticket`: serializes the payload (abstracted here as the
opaque string `payload`) and POSTs it to `/issue` through the authenticated
request executor; a 201 yields success with the response key and a browse URL; any
other status yields a failure result carrying the raw status and body text; every
exception is caught and converted to a failure result, so the call never raises. -/
def create_ticket (payload : String) (env : ReqEnv) (s : ClientState)
    (file : FileState) : TicketResponse × ClientState × FileState :=
  let ro := make_authenticated_request "POST" "/issue" (some payload) none true env s file
  match ro.result with
  | .error e =>
    ({ success := false, ticket_key := none, ticket_url := none
       error_message := some ("Unexpected error creating ticket: " ++ e.msg) },
     ro.state, ro.file)
  | .ok r =>
    if r.status = 201 then
      ({ success := true, ticket_key := r.key
         ticket_url := some (ro.state.cloud_url ++ "/browse/" ++ pyStr r.key)
         error_message := none },
       ro.state, ro.file)
    else
      ({ success := false, ticket_key := none, ticket_url := none
         error_message :=
           some ("Failed to create ticket: " ++ toString r.status ++ " - " ++ r.text) },
       ro.state, ro.file)

/-- `JiraClient.is_authenticated`: `self.access_token is not None`. -/
def is_authenticated (s : ClientState) : Bool :=
  s.access_token.isSome

/-- A Data-Center client session fixture holding an access and a refresh token. -/
def sampleDC : ClientState :=
  initClient "https://jira.example.com" "cid" "sec" "uri" "PROJ"
    (some "OLD") (some "R") emptyFile

/-- A cloud client session fixture holding an access and a refresh token. -/
def sampleCloud : ClientState :=
  initClient "https://x.atlassian.net" "cid" "sec" "uri" "PROJ"
    (some "OLD") (some "R") emptyFile

/-- A token environment whose Data-Center token fetch succeeds with access token
`"NEW"` and no rotated refresh token; the token-file write succeeds. -/
def envRefreshOk : TokenEnv :=
  ⟨.netErr "unused", .ok ⟨"NEW", none⟩, .netErr "unused", true⟩

/-- A token environment whose Data-Center token fetch fails (the provider rejects
the refresh token). -/
def envRefreshFail : TokenEnv :=
  ⟨.netErr "unused", .error "invalid_grant", .netErr "unused", true⟩

/-- A token environment whose Data-Center code exchange succeeds with tokens
`("A", "R")`; the token-file write succeeds. -/
def envExchangeOk : TokenEnv :=
  ⟨.netErr "unused", .ok ⟨"A", some "R"⟩, .netErr "unused", true⟩

/-- A token environment whose cloud token-endpoint POST answers 400 with body
text `"bad_request"`. -/
def envExchangeFailCloud : TokenEnv :=
  ⟨.resp 400 "bad_request" none, .error "unused", .netErr "unused", true⟩

/-- A token environment whose Data-Center token fetch succeeds but whose
token-file write fails. -/
def envSaveFails : TokenEnv :=
  ⟨.netErr "unused", .ok ⟨"A", some "R"⟩, .netErr "unused", false⟩

/-- A request environment: first response 401, refresh succeeds with `"NEW"`,
retried response 200. -/
def envReq401Then200 : ReqEnv :=
  ⟨.resp ⟨401, "Unauthorized", none⟩, envRefreshOk, .resp ⟨200, "ok", none⟩⟩

/-- A request environment: first response 401 and the triggered refresh fails. -/
def envReq401RefreshFails : ReqEnv :=
  ⟨.resp ⟨401, "Unauthorized", none⟩, envRefreshFail, .resp ⟨401, "Unauthorized", none⟩⟩

/-- A request environment whose first response is a 201 with issue key
`"PROJ-42"`. -/
def envReq201 : ReqEnv :=
  ⟨.resp ⟨201, "created", some "PROJ-42"⟩, envRefreshOk, .resp ⟨201, "created", some "PROJ-42"⟩⟩

/-- Frame lemma: site resolution never touches the token fields, the deployment
classification, or the configured base URL. -/
theorem get_accessible_resources_frame (out : ResResp) (s : ClientState) :
    (get_accessible_resources out s).access_token = s.access_token
    ∧ (get_accessible_resources out s).refresh_token = s.refresh_token
    ∧ (get_accessible_resources out s).is_cloud = s.is_cloud
    ∧ (get_accessible_resources out s).cloud_url = s.cloud_url := by
  obtain ⟨cu, ci, cse, ru, pk, atk, rtk, ic, au, tu, ab, si⟩ := s
  unfold get_accessible_resources
  cases atk with
  | none => exact ⟨rfl, rfl, rfl, rfl⟩
  | some tk =>
    cases out with
    | netErr m => exact ⟨rfl, rfl, rfl, rfl⟩
    | resp status body =>
      dsimp only
      split
      · cases body with
        | none => exact ⟨rfl, rfl, rfl, rfl⟩
        | some resources =>
          dsimp only
          cases hfind : resources.find? (fun r => r.url == cu) with
          | some r => exact ⟨rfl, rfl, rfl, rfl⟩
          | none =>
            cases resources with
            | nil => exact ⟨rfl, rfl, rfl, rfl⟩
            | cons r0 rest => exact ⟨rfl, rfl, rfl, rfl⟩
      · exact ⟨rfl, rfl, rfl, rfl⟩

/-- Frame lemma: a refresh never changes the deployment classification or the
configured base URL. -/
theorem refresh_frame (env : TokenEnv) (s : ClientState) (file : FileState) :
    (refresh_access_token env s file).state.is_cloud = s.is_cloud
    ∧ (refresh_access_token env s file).state.cloud_url = s.cloud_url := by
  unfold refresh_access_token
  split
  · exact ⟨rfl, rfl⟩
  · cases hf : refreshFetch s.is_cloud env with
    | error e => exact ⟨rfl, rfl⟩
    | ok tok =>
      dsimp only
      split
      · simp [get_accessible_resources_frame]
      · exact ⟨rfl, rfl⟩

/-- Frame lemma: a code exchange never changes the deployment classification or
the configured base URL. -/
theorem exchange_frame (env : TokenEnv) (s : ClientState) (file : FileState) :
    (exchange_code_for_tokens env s file).state.is_cloud = s.is_cloud
    ∧ (exchange_code_for_tokens env s file).state.cloud_url = s.cloud_url := by
  unfold exchange_code_for_tokens
  cases hf : exchangeFetch s.is_cloud env with
  | error e => exact ⟨rfl, rfl⟩
  | ok tok =>
    dsimp only
    split
    · simp [get_accessible_resources_frame]
    · exact ⟨rfl, rfl⟩

/-- Frame lemma: when a refresh raises, the session state and the token file are
exactly what they were before the call. -/
theorem refresh_error_frame (env : TokenEnv) (s : ClientState) (file : FileState)
    (e : PyErr) (h : (refresh_access_token env s file).result = .error e) :
    (refresh_access_token env s file).state = s
    ∧ (refresh_access_token env s file).file = file := by
  unfold refresh_access_token at h ⊢
  split at h <;> rename_i hrt
  · rw [if_pos hrt]
    exact ⟨rfl, rfl⟩
  · rw [if_neg hrt]
    cases hf : refreshFetch s.is_cloud env with
    | error e' => exact ⟨rfl, rfl⟩
    | ok tok => rw [hf] at h; simp at h

/-- Frame lemma: the authenticated request executor never changes the deployment
classification or the configured base URL. -/
theorem make_authenticated_request_frame (method endpoint : String)
    (data params : Option String) (retry : Bool) (env : ReqEnv) (s : ClientState)
    (file : FileState) :
    (make_authenticated_request method endpoint data params retry env s file).state.is_cloud
        = s.is_cloud
    ∧ (make_authenticated_request method endpoint data params retry env s file).state.cloud_url
        = s.cloud_url := by
  unfold make_authenticated_request
  cases s.access_token with
  | none => exact ⟨rfl, rfl⟩
  | some tk =>
    dsimp only
    cases env.first with
    | netErr m => exact ⟨rfl, rfl⟩
    | resp r =>
      dsimp only
      split
      · cases href : (refresh_access_token env.refreshEnv s file).result with
        | error e => exact refresh_frame _ _ _
        | ok newTk =>
          cases env.second with
          | netErr m => exact refresh_frame _ _ _
          | resp r2 => exact refresh_frame _ _ _
      · exact ⟨rfl, rfl⟩

/-- C6: for every call to `request()` made while the session holds no access
token, the call fails with `NotAuthenticatedError` (the `ValueError` raised by
`_make_authenticated_request`) before issuing any network request, regardless of
method, endpoint, body, params, or the retry flag; no refresh is attempted and
session state and token file are untouched. -/
theorem c6_unauthenticated_request_fails_before_network (method endpoint : String)
    (data params : Option String) (retry : Bool) (env : ReqEnv) (s : ClientState)
    (file : FileState) (h : s.access_token = none) :
    (make_authenticated_request method endpoint data params retry env s file).result
        = .error (.valueError "No access token available. Please authenticate first.")
    ∧ (make_authenticated_request method endpoint data params retry env s file).calls = []
    ∧ (make_authenticated_request method endpoint data params retry env s file).refreshCalls = 0
    ∧ (make_authenticated_request method endpoint data params retry env s file).state = s
    ∧ (make_authenticated_request method endpoint data params retry env s file).file = file := by
  obtain ⟨cu, ci, cse, ru, pk, atk, rtk, ic, au, tu, ab, si⟩ := s
  dsimp only at h
  subst h
  exact ⟨rfl, rfl, rfl, rfl, rfl⟩

/-- Witness for C6 at a concrete unauthenticated session. -/
theorem c6_witness :
    (initClient "https://jira.example.com" "cid" "sec" "uri" "PROJ" none none
        emptyFile).access_token = none
    ∧ (make_authenticated_request "GET" "/serverInfo" none none true
        ⟨.resp ⟨200, "", none⟩, envRefreshOk, .resp ⟨200, "", none⟩⟩
        (initClient "https://jira.example.com" "cid" "sec" "uri" "PROJ" none none emptyFile)
        emptyFile).result
        = .error (.valueError "No access token available. Please authenticate first.")
    ∧ (make_authenticated_request "GET" "/serverInfo" none none true
        ⟨.resp ⟨200, "", none⟩, envRefreshOk, .resp ⟨200, "", none⟩⟩
        (initClient "https://jira.example.com" "cid" "sec" "uri" "PROJ" none none emptyFile)
        emptyFile).calls = [] :=
  ⟨rfl,
   (c6_unauthenticated_request_fails_before_network _ _ _ _ _ _ _ _ rfl).1,
   (c6_unauthenticated_request_fails_before_network _ _ _ _ _ _ _ _ rfl).2.1⟩

/-- C9: saving a credential record and then loading it for the same service name
returns an identical record (when the file write succeeds), and loading a service
name with no stored record returns `none`, not an error. -/
theorem c9_storage_roundtrip (file : FileState) (service : String) (r : CredRecord)
    (writeOk : Bool) (hw : writeOk = true) :
    load_tokens (save_tokens writeOk file service r).1 service = some r
    ∧ ∀ svc, file svc = none → load_tokens file svc = none := by
  subst hw
  refine ⟨?_, ?_⟩
  · simp [load_tokens, save_tokens, CredRecord.truthy]
  · intro svc h
    simp [load_tokens, h]

/-- Witness for C9 at a concrete record and the empty file. -/
theorem c9_witness :
    load_tokens
        (save_tokens true emptyFile "jira"
          ⟨some "A", some "R", none, "https://x.atlassian.net",
           "https://x.atlassian.net/rest/api/3"⟩).1 "jira"
      = some ⟨some "A", some "R", none, "https://x.atlassian.net",
              "https://x.atlassian.net/rest/api/3"⟩
    ∧ load_tokens emptyFile "unknown-service" = none :=
  ⟨(c9_storage_roundtrip emptyFile "jira" _ true rfl).1,
   (c9_storage_roundtrip emptyFile "jira"
      ⟨some "A", some "R", none, "https://x.atlassian.net",
       "https://x.atlassian.net/rest/api/3"⟩ true rfl).2 "unknown-service" rfl⟩

/-- C7: the site resolver leaves the session unchanged on a transport error or a
non-200 status; on a 200 list it binds the first resource whose `url` equals the
configured base URL exactly, else falls back to the first resource of a non-empty
list, rewriting `api_base` to the canonical per-site path in both cases. -/
theorem c7_site_resolver_best_effort (out : ResResp) (s : ClientState) (tk : String)
    (hak : s.access_token = some tk) :
    (∀ m, out = .netErr m → get_accessible_resources out s = s)
    ∧ (∀ status body, out = .resp status body → status ≠ 200 →
        get_accessible_resources out s = s)
    ∧ (∀ rs r, out = .resp 200 (some rs) →
        rs.find? (fun x => x.url == s.cloud_url) = some r →
        (get_accessible_resources out s).site_id = r.id
        ∧ (get_accessible_resources out s).api_base = siteApiBase r.id)
    ∧ (∀ r0 rest, out = .resp 200 (some (r0 :: rest)) →
        (r0 :: rest).find? (fun x => x.url == s.cloud_url) = none →
        (get_accessible_resources out s).site_id = r0.id
        ∧ (get_accessible_resources out s).api_base = siteApiBase r0.id) := by
  obtain ⟨cu, ci, cse, ru, pk, atk, rtk, ic, au, tu, ab, si⟩ := s
  dsimp only at hak
  subst hak
  refine ⟨?_, ?_, ?_, ?_⟩
  · intro m h; subst h; rfl
  · intro status body h hne
    subst h
    unfold get_accessible_resources
    dsimp only
    rw [if_neg hne]
  · intro rs r h hfind
    subst h
    dsimp only at hfind
    simp [get_accessible_resources, hfind]
  · intro r0 rest h hfind
    subst h
    dsimp only at hfind
    simp [get_accessible_resources, hfind]

/-- Witness for C7 at a concrete cloud session with one exactly-matching
resource. -/
theorem c7_witness :
    sampleCloud.access_token = some "OLD"
    ∧ ([⟨some "SITE", "https://x.atlassian.net"⟩] : List Resource).find?
        (fun x => x.url == sampleCloud.cloud_url)
        = some ⟨some "SITE", "https://x.atlassian.net"⟩
    ∧ (get_accessible_resources
        (.resp 200 (some [⟨some "SITE", "https://x.atlassian.net"⟩])) sampleCloud).site_id
        = some "SITE"
    ∧ (get_accessible_resources
        (.resp 200 (some [⟨some "SITE", "https://x.atlassian.net"⟩])) sampleCloud).api_base
        = siteApiBase (some "SITE") :=
  ⟨rfl, rfl,
   ((c7_site_resolver_best_effort _ sampleCloud "OLD" rfl).2.2.1
      [⟨some "SITE", "https://x.atlassian.net"⟩]
      ⟨some "SITE", "https://x.atlassian.net"⟩ rfl rfl).1,
   ((c7_site_resolver_best_effort _ sampleCloud "OLD" rfl).2.2.1
      [⟨some "SITE", "https://x.atlassian.net"⟩]
      ⟨some "SITE", "https://x.atlassian.net"⟩ rfl rfl).2⟩

/-- Helper: a failed token-file write leaves the file unchanged. -/
theorem saveTokensStep_fail (s : ClientState) (file : FileState) :
    saveTokensStep false s file = file := rfl

/-- Helper: a successful token-file write stores the session record under
`"jira"`. -/
theorem saveTokensStep_ok (s : ClientState) (file : FileState) :
    saveTokensStep true s file "jira" = some (saveTokensRecord s) := by
  simp [saveTokensStep, save_tokens]

/-- C2: with a refresh token present, a refresh whose HTTP call throws or whose
status is non-success leaves the in-memory `access_token` and `refresh_token`
exactly as they were; on success the access token is replaced and the refresh
token is replaced only if the response body contains a `refresh_token` key. -/
theorem c2_refresh_never_partially_updates (env : TokenEnv) (s : ClientState)
    (file : FileState) (hrt : s.refresh_token ≠ none) :
    (∀ e, (refresh_access_token env s file).result = .error e →
        (refresh_access_token env s file).state.access_token = s.access_token
        ∧ (refresh_access_token env s file).state.refresh_token = s.refresh_token)
    ∧ (∀ tok, refreshFetch s.is_cloud env = .ok tok →
        (refresh_access_token env s file).state.access_token = some tok.access_token
        ∧ (refresh_access_token env s file).state.refresh_token
            = (match tok.refresh_token with
               | some r => some r
               | none => s.refresh_token)) := by
  constructor
  · intro e h
    rw [(refresh_error_frame env s file e h).1]
    exact ⟨rfl, rfl⟩
  · intro tok hf
    unfold refresh_access_token
    rw [if_neg hrt, hf]
    dsimp only
    constructor
    · split
      · exact ((get_accessible_resources_frame _ _).1).trans rfl
      · rfl
    · split
      · exact ((get_accessible_resources_frame _ _).2.1).trans rfl
      · rfl

/-- Witness for C2 at a concrete Data-Center session whose refresh succeeds with
a response that carries no `refresh_token` key. -/
theorem c2_witness :
    sampleDC.refresh_token ≠ none
    ∧ refreshFetch sampleDC.is_cloud envRefreshOk = .ok ⟨"NEW", none⟩
    ∧ (refresh_access_token envRefreshOk sampleDC emptyFile).state.access_token = some "NEW"
    ∧ (refresh_access_token envRefreshOk sampleDC emptyFile).state.refresh_token = some "R" :=
  ⟨by decide, rfl,
   ((c2_refresh_never_partially_updates envRefreshOk sampleDC emptyFile
      (by decide)).2 ⟨"NEW", none⟩ rfl).1,
   ((c2_refresh_never_partially_updates envRefreshOk sampleDC emptyFile
      (by decide)).2 ⟨"NEW", none⟩ rfl).2⟩

/-- C10: when the HTTP token request succeeds but the token-store write fails,
both the code exchange and the refresh still return the tokens successfully, the
in-memory session keeps the new tokens, and the persisted file is unchanged
(store and session silently diverge). -/
theorem c10_store_write_failure_swallowed (env : TokenEnv) (s : ClientState)
    (file : FileState) (hsave : env.saveOk = false) :
    (∀ tok, exchangeFetch s.is_cloud env = .ok tok →
        (exchange_code_for_tokens env s file).result
            = .ok (tok.access_token, (exchange_code_for_tokens env s file).state.refresh_token)
        ∧ (exchange_code_for_tokens env s file).state.access_token = some tok.access_token
        ∧ (exchange_code_for_tokens env s file).file = file)
    ∧ (∀ tok, s.refresh_token ≠ none → refreshFetch s.is_cloud env = .ok tok →
        (refresh_access_token env s file).result = .ok tok.access_token
        ∧ (refresh_access_token env s file).state.access_token = some tok.access_token
        ∧ (refresh_access_token env s file).file = file) := by
  constructor
  · intro tok hf
    unfold exchange_code_for_tokens
    rw [hf]
    dsimp only
    refine ⟨rfl, ?_, ?_⟩
    · split
      · exact ((get_accessible_resources_frame _ _).1).trans rfl
      · rfl
    · rw [hsave]
      exact saveTokensStep_fail _ _
  · intro tok hrt hf
    unfold refresh_access_token
    rw [if_neg hrt, hf]
    dsimp only
    refine ⟨rfl, ?_, ?_⟩
    · split
      · exact ((get_accessible_resources_frame _ _).1).trans rfl
      · rfl
    · rw [hsave]
      exact saveTokensStep_fail _ _

/-- Witness for C10 at a concrete Data-Center session whose token fetch succeeds
while the file write fails. -/
theorem c10_witness :
    envSaveFails.saveOk = false
    ∧ exchangeFetch sampleDC.is_cloud envSaveFails = .ok ⟨"A", some "R"⟩
    ∧ (exchange_code_for_tokens envSaveFails sampleDC emptyFile).state.access_token = some "A"
    ∧ (exchange_code_for_tokens envSaveFails sampleDC emptyFile).file = emptyFile :=
  ⟨rfl, rfl,
   ((c10_store_write_failure_swallowed envSaveFails sampleDC emptyFile rfl).1
      ⟨"A", some "R"⟩ rfl).2.1,
   ((c10_store_write_failure_swallowed envSaveFails sampleDC emptyFile rfl).1
      ⟨"A", some "R"⟩ rfl).2.2⟩

/-- C4: a successful code exchange whose token response is
`{access_token: A, refresh_token: R}` leaves the session with exactly those
tokens, returns the pair, and (when the write succeeds) persists under `"jira"`
a record equal to the final session state; a non-success status from the cloud
token endpoint raises an `Exception` carrying the status and body and persists
nothing, leaving the session unchanged. -/
theorem c4_exchange_updates_session_and_store (env : TokenEnv) (s : ClientState)
    (file : FileState) :
    (∀ A R, exchangeFetch s.is_cloud env = .ok ⟨A, some R⟩ → env.saveOk = true →
        (exchange_code_for_tokens env s file).result = .ok (A, some R)
        ∧ (exchange_code_for_tokens env s file).state.access_token = some A
        ∧ (exchange_code_for_tokens env s file).state.refresh_token = some R
        ∧ (exchange_code_for_tokens env s file).file "jira"
            = some (saveTokensRecord (exchange_code_for_tokens env s file).state))
    ∧ (∀ status text body, s.is_cloud = true → env.http = .resp status text body →
        status ≠ 200 →
        (exchange_code_for_tokens env s file).result
            = .error (.exn ("Token exchange failed: " ++ toString status ++ " - " ++ text))
        ∧ (exchange_code_for_tokens env s file).state = s
        ∧ (exchange_code_for_tokens env s file).file = file) := by
  constructor
  · intro A R hf hsave
    have hat : (exchange_code_for_tokens env s file).state.access_token = some A := by
      unfold exchange_code_for_tokens
      rw [hf]
      dsimp only
      split
      · exact ((get_accessible_resources_frame _ _).1).trans rfl
      · rfl
    have hrt : (exchange_code_for_tokens env s file).state.refresh_token = some R := by
      unfold exchange_code_for_tokens
      rw [hf]
      dsimp only
      split
      · exact ((get_accessible_resources_frame _ _).2.1).trans rfl
      · rfl
    have hres : (exchange_code_for_tokens env s file).result
        = .ok (A, (exchange_code_for_tokens env s file).state.refresh_token) := by
      unfold exchange_code_for_tokens
      rw [hf]
    refine ⟨?_, hat, hrt, ?_⟩
    · rw [hres, hrt]
    · unfold exchange_code_for_tokens
      rw [hf]
      dsimp only
      rw [hsave]
      exact saveTokensStep_ok _ _
  · intro status text body hc hhttp hne
    have hf : exchangeFetch s.is_cloud env
        = .error (.exn ("Token exchange failed: " ++ toString status ++ " - " ++ text)) := by
      simp [exchangeFetch, hc, hhttp, hne]
    unfold exchange_code_for_tokens
    rw [hf]
    exact ⟨rfl, rfl, rfl⟩

/-- Witness for C4: a concrete successful Data-Center exchange, and a concrete
failing cloud exchange. -/
theorem c4_witness :
    exchangeFetch sampleDC.is_cloud envExchangeOk = .ok ⟨"A", some "R"⟩
    ∧ (exchange_code_for_tokens envExchangeOk sampleDC emptyFile).result = .ok ("A", some "R")
    ∧ (exchange_code_for_tokens envExchangeOk sampleDC emptyFile).state.access_token = some "A"
    ∧ (exchange_code_for_tokens envExchangeOk sampleDC emptyFile).state.refresh_token = some "R"
    ∧ (exchange_code_for_tokens envExchangeOk sampleDC emptyFile).file "jira"
        = some (saveTokensRecord (exchange_code_for_tokens envExchangeOk sampleDC emptyFile).state)
    ∧ (exchange_code_for_tokens envExchangeFailCloud sampleCloud emptyFile).result
        = .error (.exn ("Token exchange failed: " ++ toString 400 ++ " - " ++ "bad_request"))
    ∧ (exchange_code_for_tokens envExchangeFailCloud sampleCloud emptyFile).file = emptyFile :=
  ⟨rfl,
   ((c4_exchange_updates_session_and_store envExchangeOk sampleDC emptyFile).1
      "A" "R" rfl rfl).1,
   ((c4_exchange_updates_session_and_store envExchangeOk sampleDC emptyFile).1
      "A" "R" rfl rfl).2.1,
   ((c4_exchange_updates_session_and_store envExchangeOk sampleDC emptyFile).1
      "A" "R" rfl rfl).2.2.1,
   ((c4_exchange_updates_session_and_store envExchangeOk sampleDC emptyFile).1
      "A" "R" rfl rfl).2.2.2,
   ((c4_exchange_updates_session_and_store envExchangeFailCloud sampleCloud emptyFile).2
      400 "bad_request" none rfl rfl (by decide)).1,
   ((c4_exchange_updates_session_and_store envExchangeFailCloud sampleCloud emptyFile).2
      400 "bad_request" none rfl rfl (by decide)).2.2⟩

/-- C1: when the first attempt returns 401 with the retry flag on and a refresh
token present, and the triggered refresh succeeds, the executor refreshes exactly
once, rebuilds the `Authorization` header from the new access token, retries the
identical request exactly once and returns whatever the retry produced (a second
401 included); and on every input at most one refresh per call occurs. -/
theorem c1_refresh_once_and_retry_once (method endpoint : String)
    (data params : Option String) (env : ReqEnv) (s : ClientState) (file : FileState)
    (tk newTk : String) (r : ApiResp)
    (hak : s.access_token = some tk)
    (hrt : s.refresh_token.isSome = true)
    (hfirst : env.first = .resp r)
    (h401 : r.status = 401)
    (href : (refresh_access_token env.refreshEnv s file).result = .ok newTk) :
    (make_authenticated_request method endpoint data params true env s file).refreshCalls = 1
    ∧ (make_authenticated_request method endpoint data params true env s file).calls
        = [⟨method, s.api_base ++ "/" ++ lstripSlash endpoint, data, params, "Bearer " ++ tk⟩,
           ⟨method, s.api_base ++ "/" ++ lstripSlash endpoint, data, params, "Bearer " ++ newTk⟩]
    ∧ (∀ r2, env.second = .resp r2 →
        (make_authenticated_request method endpoint data params true env s file).result = .ok r2)
    ∧ (∀ m, env.second = .netErr m →
        (make_authenticated_request method endpoint data params true env s file).result
            = .error (.transport m))
    ∧ (∀ (m e : String) (d p : Option String) (b : Bool) (env' : ReqEnv)
        (s' : ClientState) (f' : FileState),
        (make_authenticated_request m e d p b env' s' f').refreshCalls ≤ 1) := by
  have hcond : (r.status == 401 && true && (s.refresh_token).isSome) = true := by
    rw [h401, hrt]
    rfl
  unfold make_authenticated_request
  rw [hak]
  dsimp only
  rw [hfirst]
  dsimp only
  rw [if_pos hcond, href]
  dsimp only
  refine ⟨?_, ?_, ?_, ?_, ?_⟩
  · cases env.second <;> rfl
  · cases env.second <;> rfl
  · intro r2 h2
    rw [h2]
  · intro m h2
    rw [h2]
  · intro m e d p b env' s' f'
    cases hat : s'.access_token with
    | none => exact Nat.zero_le 1
    | some tk' =>
      dsimp only
      cases env'.first with
      | netErr msg => exact Nat.zero_le 1
      | resp rr =>
        dsimp only
        split
        · cases (refresh_access_token env'.refreshEnv s' f').result with
          | error err => exact Nat.le_refl 1
          | ok nt =>
            cases env'.second with
            | netErr msg => exact Nat.le_refl 1
            | resp r2 => exact Nat.le_refl 1
        · exact Nat.zero_le 1

/-- Witness for C1 at a concrete Data-Center session: one 401, one successful
refresh, and a retried 200 that is returned. -/
theorem c1_witness :
    sampleDC.access_token = some "OLD"
    ∧ (refresh_access_token envReq401Then200.refreshEnv sampleDC emptyFile).result = .ok "NEW"
    ∧ (make_authenticated_request "GET" "/myself" none none true envReq401Then200 sampleDC
        emptyFile).refreshCalls = 1
    ∧ (make_authenticated_request "GET" "/myself" none none true envReq401Then200 sampleDC
        emptyFile).result = .ok ⟨200, "ok", none⟩ :=
  ⟨rfl, rfl,
   (c1_refresh_once_and_retry_once "GET" "/myself" none none envReq401Then200 sampleDC
      emptyFile "OLD" "NEW" ⟨401, "Unauthorized", none⟩ rfl rfl rfl rfl rfl).1,
   (c1_refresh_once_and_retry_once "GET" "/myself" none none envReq401Then200 sampleDC
      emptyFile "OLD" "NEW" ⟨401, "Unauthorized", none⟩ rfl rfl rfl rfl rfl).2.2.1
      ⟨200, "ok", none⟩ rfl⟩

/-- C3 counterexample: at a concrete session holding tokens, a 401 followed by a
failed refresh leaves the stale access token in place and `is_authenticated`
still reports `true`, and a subsequent request still issues a network call
instead of failing with `NotAuthenticatedError` — the claimed transition to an
Unauthenticated state does not happen. -/
theorem c3_counterexample :
    (make_authenticated_request "GET" "/serverInfo" none none true envReq401RefreshFails
        sampleDC emptyFile).result = .error (.exn "invalid_grant")
    ∧ (make_authenticated_request "GET" "/serverInfo" none none true envReq401RefreshFails
        sampleDC emptyFile).state.access_token = some "OLD"
    ∧ is_authenticated (make_authenticated_request "GET" "/serverInfo" none none true
        envReq401RefreshFails sampleDC emptyFile).state = true
    ∧ (make_authenticated_request "GET" "/serverInfo" none none true envReq401RefreshFails
        (make_authenticated_request "GET" "/serverInfo" none none true envReq401RefreshFails
          sampleDC emptyFile).state emptyFile).calls ≠ [] :=
  ⟨rfl, rfl, rfl, by decide⟩

/-- C3 amended: whenever a request returns 401 with a refresh token present and
the triggered refresh fails, the refresh error propagates to the caller but the
session keeps its previous access and refresh tokens unchanged, so
`is_authenticated` still reports `true` and subsequent requests proceed with the
stale token rather than failing with `NotAuthenticatedError`. -/
theorem c3_amended_failed_refresh_keeps_stale_session (method endpoint : String)
    (data params : Option String) (env : ReqEnv) (s : ClientState) (file : FileState)
    (tk : String) (r : ApiResp) (e : PyErr)
    (hak : s.access_token = some tk)
    (hrt : s.refresh_token.isSome = true)
    (hfirst : env.first = .resp r)
    (h401 : r.status = 401)
    (href : (refresh_access_token env.refreshEnv s file).result = .error e) :
    (make_authenticated_request method endpoint data params true env s file).result = .error e
    ∧ (make_authenticated_request method endpoint data params true env s file).state = s
    ∧ is_authenticated
        (make_authenticated_request method endpoint data params true env s file).state
        = true := by
  have hcond : (r.status == 401 && true && (s.refresh_token).isSome) = true := by
    rw [h401, hrt]
    rfl
  have hstate := (refresh_error_frame env.refreshEnv s file e href).1
  unfold make_authenticated_request
  rw [hak]
  dsimp only
  rw [hfirst]
  dsimp only
  rw [if_pos hcond, href]
  dsimp only
  refine ⟨rfl, hstate, ?_⟩
  rw [hstate]
  unfold is_authenticated
  rw [hak]
  rfl

/-- Witness for the amended C3 at a concrete session with a failing refresh. -/
theorem c3_witness :
    (refresh_access_token envReq401RefreshFails.refreshEnv sampleDC emptyFile).result
        = .error (.exn "invalid_grant")
    ∧ (make_authenticated_request "GET" "/project/PROJ" none none true envReq401RefreshFails
        sampleDC emptyFile).state = sampleDC
    ∧ is_authenticated (make_authenticated_request "GET" "/project/PROJ" none none true
        envReq401RefreshFails sampleDC emptyFile).state = true :=
  ⟨rfl,
   (c3_amended_failed_refresh_keeps_stale_session "GET" "/project/PROJ" none none
      envReq401RefreshFails sampleDC emptyFile "OLD" ⟨401, "Unauthorized", none⟩
      (.exn "invalid_grant") rfl rfl rfl rfl rfl).2.1,
   (c3_amended_failed_refresh_keeps_stale_session "GET" "/project/PROJ" none none
      envReq401RefreshFails sampleDC emptyFile "OLD" ⟨401, "Unauthorized", none⟩
      (.exn "invalid_grant") rfl rfl rfl rfl rfl).2.2⟩

/-- C5: `create_ticket` always returns a structured result: a 201 yields a
success record with the response key and the browse URL concatenated from the
base URL and key; any other status yields a failure record carrying the raw
status and body text; any exception from the request layer is caught and
converted to a failure record. -/
theorem c5_create_ticket_never_raises (payload : String) (env : ReqEnv)
    (s : ClientState) (file : FileState) :
    (∀ e, (make_authenticated_request "POST" "/issue" (some payload) none true env s
          file).result = .error e →
        (create_ticket payload env s file).1
          = ⟨false, none, none, some ("Unexpected error creating ticket: " ++ e.msg)⟩)
    ∧ (∀ r, (make_authenticated_request "POST" "/issue" (some payload) none true env s
          file).result = .ok r → r.status = 201 →
        (create_ticket payload env s file).1
          = ⟨true, r.key, some (s.cloud_url ++ "/browse/" ++ pyStr r.key), none⟩)
    ∧ (∀ r, (make_authenticated_request "POST" "/issue" (some payload) none true env s
          file).result = .ok r → r.status ≠ 201 →
        (create_ticket payload env s file).1
          = ⟨false, none, none,
             some ("Failed to create ticket: " ++ toString r.status ++ " - " ++ r.text)⟩) := by
  refine ⟨?_, ?_, ?_⟩
  · intro e h
    unfold create_ticket
    dsimp only
    rw [h]
  · intro r h h201
    unfold create_ticket
    dsimp only
    rw [h]
    dsimp only
    rw [if_pos h201,
        (make_authenticated_request_frame "POST" "/issue" (some payload) none true env s
          file).2]
  · intro r h hne
    unfold create_ticket
    dsimp only
    rw [h]
    dsimp only
    rw [if_neg hne]

/-- Witness for C5 at a concrete 201 response. -/
theorem c5_witness :
    (make_authenticated_request "POST" "/issue" (some "payload") none true envReq201
        sampleDC emptyFile).result = .ok ⟨201, "created", some "PROJ-42"⟩
    ∧ (create_ticket "payload" envReq201 sampleDC emptyFile).1
        = ⟨true, some "PROJ-42",
           some (sampleDC.cloud_url ++ "/browse/" ++ pyStr (some "PROJ-42")), none⟩ :=
  ⟨rfl,
   (c5_create_ticket_never_raises "payload" envReq201 sampleDC emptyFile).2.1
      ⟨201, "created", some "PROJ-42"⟩ rfl rfl⟩

/-- C8 counterexample: the base URL `"https://x.atlassian.net/"` does not end in
`".atlassian.net"`, yet the client classifies it as cloud (the suffix check runs
on the URL after trailing slashes are stripped), selecting the cloud endpoints
and API version 3 — so the claim's "every other base URL is self-hosted" half
fails as stated. -/
theorem c8_counterexample :
    pyEndsWith "https://x.atlassian.net/" ".atlassian.net" = false
    ∧ (initClient "https://x.atlassian.net/" "cid" "sec" "uri" "PROJ" (some "tk") none
        emptyFile).is_cloud = true
    ∧ (initClient "https://x.atlassian.net/" "cid" "sec" "uri" "PROJ" (some "tk") none
        emptyFile).auth_url = "https://auth.atlassian.com/authorize"
    ∧ (initClient "https://x.atlassian.net/" "cid" "sec" "uri" "PROJ" (some "tk") none
        emptyFile).api_base = "https://x.atlassian.net/rest/api/3" :=
  ⟨by decide, by decide, by decide, by decide⟩

/-- C8 amended: the classification runs on the base URL after stripping trailing
slashes: exactly the stripped URLs ending in `".atlassian.net"` are cloud,
selecting the shared `auth.atlassian.com` endpoints, API version path segment 3
and the cloud scope set including `offline_access`; all others are self-hosted,
selecting endpoints on the base URL itself, API version path segment 2 and the
administrative scope set; and no operation ever changes the classification. -/
theorem c8_amended_variant_classification
    (cloud_url client_id client_secret redirect_uri project_key : String)
    (atk rtk : Option String) (file : FileState) (s : ClientState)
    (hs : s = initClient cloud_url client_id client_secret redirect_uri project_key
        atk rtk file) :
    s.is_cloud = pyEndsWith (rstripSlash cloud_url) ".atlassian.net"
    ∧ (s.is_cloud = true →
        s.auth_url = "https://auth.atlassian.com/authorize"
        ∧ s.token_url = "https://auth.atlassian.com/oauth/token"
        ∧ s.api_base = rstripSlash cloud_url ++ "/rest/api/" ++ "3"
        ∧ oauthScopes s.is_cloud
            = ["read:jira-user", "read:jira-work", "write:jira-work", "offline_access"])
    ∧ (s.is_cloud = false →
        s.auth_url = rstripSlash cloud_url ++ "/plugins/servlet/oauth/authorize"
        ∧ s.token_url = rstripSlash cloud_url ++ "/plugins/servlet/oauth/access-token"
        ∧ s.api_base = rstripSlash cloud_url ++ "/rest/api/" ++ "2"
        ∧ oauthScopes s.is_cloud
            = ["read:jira-user", "read:jira-work", "write:jira-work",
               "manage:jira-project", "manage:jira-configuration"])
    ∧ (∀ env f, (refresh_access_token env s f).state.is_cloud = s.is_cloud)
    ∧ (∀ env f, (exchange_code_for_tokens env s f).state.is_cloud = s.is_cloud)
    ∧ (∀ out, (get_accessible_resources out s).is_cloud = s.is_cloud)
    ∧ (∀ (m e : String) (d p : Option String) (b : Bool) (env : ReqEnv) (f : FileState),
        (make_authenticated_request m e d p b env s f).state.is_cloud = s.is_cloud) := by
  subst hs
  refine ⟨rfl, ?_, ?_, ?_, ?_, ?_, ?_⟩
  · intro hc
    simp only [initClient] at hc ⊢
    simp [hc, oauthScopes]
  · intro hc
    simp only [initClient] at hc ⊢
    simp [hc, oauthScopes]
  · intro env f
    exact (refresh_frame env _ f).1
  · intro env f
    exact (exchange_frame env _ f).1
  · intro out
    exact (get_accessible_resources_frame out _).2.2.1
  · intro m e d p b env f
    exact (make_authenticated_request_frame m e d p b env _ f).1

/-- Witness for the amended C8 at a concrete cloud URL and a concrete
self-hosted URL. -/
theorem c8_witness :
    (initClient "https://y.atlassian.net" "cid" "sec" "uri" "PROJ" (some "tk") none
        emptyFile).is_cloud = pyEndsWith (rstripSlash "https://y.atlassian.net") ".atlassian.net"
    ∧ (initClient "https://y.atlassian.net" "cid" "sec" "uri" "PROJ" (some "tk") none
        emptyFile).auth_url = "https://auth.atlassian.com/authorize"
    ∧ oauthScopes (initClient "https://y.atlassian.net" "cid" "sec" "uri" "PROJ" (some "tk")
        none emptyFile).is_cloud
        = ["read:jira-user", "read:jira-work", "write:jira-work", "offline_access"]
    ∧ (initClient "https://jira.example.com" "cid" "sec" "uri" "PROJ" (some "tk") none
        emptyFile).api_base = rstripSlash "https://jira.example.com" ++ "/rest/api/" ++ "2" :=
  ⟨(c8_amended_variant_classification "https://y.atlassian.net" "cid" "sec" "uri" "PROJ"
      (some "tk") none emptyFile _ rfl).1,
   ((c8_amended_variant_classification "https://y.atlassian.net" "cid" "sec" "uri" "PROJ"
      (some "tk") none emptyFile _ rfl).2.1 (by decide)).1,
   ((c8_amended_variant_classification "https://y.atlassian.net" "cid" "sec" "uri" "PROJ"
      (some "tk") none emptyFile _ rfl).2.1 (by decide)).2.2.2,
   ((c8_amended_variant_classification "https://jira.example.com" "cid" "sec" "uri" "PROJ"
      (some "tk") none emptyFile _ rfl).2.2.1 (by decide)).2.2.1⟩

end TgmJira
